import Mathlib

/-!
Verification of the realtime-translator client against its specification.

This file gives a shallow embedding of the realtime session client
(src/lib/openai/realtime-client.ts) and its consuming React hook
(src/lib/hooks/useRealtimeTranslation.ts), together with theorems about
the connection state machine, the reconnection policy, turn assembly,
history aggregation and teardown.

Modelling conventions:
- The mutable fields of the `RealtimeWebRTCClient` object become a
  `ClientState` record; each method becomes a function from `ClientState`
  to `ClientState` paired with the list of option callbacks it fires, in
  firing order.  The hook consumes that callback list in order, which is
  observationally equivalent to the synchronous calls in the source since
  the hook callbacks never mutate client fields and the client never
  reads hook state.
- Nullable object references (peer connection, data channel, audio
  element) are modelled as `Bool` presence flags, the media stream as an
  optional list of tracks, and the credential as an `Option String`.
- Timestamps and the random record identifier are modelled by a logical
  clock in the hook state; their values are irrelevant to every claim.
-/

/-- Connection state enum, from the ConnectionState union type. -/
inductive ConnectionState
  | disconnected
  | connecting
  | connected
  | reconnecting
  | failed
deriving DecidableEq, Repr

/-- Translation turn state enum, from the TranslationState union type. -/
inductive TranslationState
  | idle
  | listening
  | processing
  | speaking
  | error
deriving DecidableEq, Repr

/-- Error kind tags of the RealtimeError interface. -/
inductive ErrorKind
  | connection
  | audio
  | api
  | unknown
deriving DecidableEq, Repr

/-- The RealtimeError record: kind tag, optional code, message, recoverable flag. -/
structure RealtimeError where
  type : ErrorKind
  code : Option String := none
  message : String
  recoverable : Bool
deriving DecidableEq, Repr

/-- A local media track: `stopped` records whether track.stop() has run,
`enabled` mirrors the mute flag toggled by setMicrophoneMuted. -/
structure Track where
  stopped : Bool
  enabled : Bool
deriving DecidableEq, Repr

/-- The mutable fields of RealtimeWebRTCClient.  Object references are
presence flags; the media stream is the list of tracks it owns. -/
structure ClientState where
  peerConnection : Bool
  dataChannel : Bool
  audioElement : Bool
  mediaStream : Option (List Track)
  connectionState : ConnectionState
  translationState : TranslationState
  reconnectAttempts : Nat
  clientSecret : Option String
  outputTranscript : String
deriving DecidableEq, Repr

/-- Field initial values of a freshly constructed client. -/
def initialClient : ClientState :=
  { peerConnection := false
    dataChannel := false
    audioElement := false
    mediaStream := none
    connectionState := .disconnected
    translationState := .idle
    reconnectAttempts := 0
    clientSecret := none
    outputTranscript := "" }

/-- One invocation of an options callback, in the order the client fires
them.  Payloads are the values the source passes. -/
inductive Callback
  | connectionStateCb (state : ConnectionState)
  | translationStateCb (state : TranslationState)
  | errorCb (e : RealtimeError)
  | inputTranscriptCb (transcript : String) (isFinal : Bool)
  | outputTranscriptCb (transcript : String) (isFinal : Bool)
  | messageCb
  | audioStartCb
  | audioEndCb
deriving DecidableEq, Repr

/-- setConnectionState: assigns and fires onConnectionStateChange only
when the value differs from the current one. -/
def setConnectionState (s : ClientState) (st : ConnectionState) :
    ClientState × List Callback :=
  if s.connectionState ≠ st then
    ({ s with connectionState := st }, [.connectionStateCb st])
  else
    (s, [])

/-- setTranslationState: assigns and fires onTranslationStateChange only
when the value differs from the current one. -/
def setTranslationState (s : ClientState) (st : TranslationState) :
    ClientState × List Callback :=
  if s.translationState ≠ st then
    ({ s with translationState := st }, [.translationStateCb st])
  else
    (s, [])

/-- handleError: fires onError, then forces the turn state to error when
the error is not recoverable. -/
def handleError (s : ClientState) (e : RealtimeError) :
    ClientState × List Callback :=
  let r := if !e.recoverable then setTranslationState s .error else (s, [])
  (r.1, .errorCb e :: r.2)

/-- The reconnection configuration constant RECONNECT_CONFIG. -/
structure ReconnectConfig where
  maxAttempts : Nat
  baseDelayMs : Nat
  maxDelayMs : Nat

/-- RECONNECT_CONFIG = maxAttempts 3, baseDelayMs 1000, maxDelayMs 10000. -/
def RECONNECT_CONFIG : ReconnectConfig :=
  { maxAttempts := 3, baseDelayMs := 1000, maxDelayMs := 10000 }

/-- The backoff delay computed inside attemptReconnect for attempt
number n (the counter value after its increment). -/
def reconnectDelay (n : Nat) : Nat :=
  min (RECONNECT_CONFIG.baseDelayMs * 2 ^ (n - 1)) RECONNECT_CONFIG.maxDelayMs

/-- The non-recoverable error built by handleConnectionFailure. -/
def connectionFailedError : RealtimeError :=
  { type := .connection
    message := "연결에 실패했습니다. 네트워크 상태를 확인해주세요."
    recoverable := false }

/-- handleConnectionFailure: state failed, turn state error, then a
non-recoverable connection error through handleError. -/
def handleConnectionFailure (s : ClientState) : ClientState × List Callback :=
  let r1 := setConnectionState s .failed
  let r2 := setTranslationState r1.1 .error
  let r3 := handleError r2.1 connectionFailedError
  (r3.1, r1.2 ++ r2.2 ++ r3.2)

/-- The synchronous part of attemptReconnect, up to its first await:
abandons immediately when no credential is held, otherwise increments
the attempt counter and schedules a delay (returned as the second
component; none when abandoned). -/
def attemptReconnectSync (s : ClientState) : ClientState × Option Nat :=
  match s.clientSecret with
  | none => (s, none)
  | some _ =>
    let n := s.reconnectAttempts + 1
    ({ s with reconnectAttempts := n }, some (reconnectDelay n))

/-- handleDisconnection: below the maximum the state becomes
reconnecting and a reconnect attempt is started; at the maximum this is
a connection failure. -/
def handleDisconnection (s : ClientState) : ClientState × List Callback :=
  if s.reconnectAttempts < RECONNECT_CONFIG.maxAttempts then
    let r := setConnectionState s .reconnecting
    ((attemptReconnectSync r.1).1, r.2)
  else
    handleConnectionFailure s

/-- The catch branch of attemptReconnect after a failed reconnect
connect call: retry below the maximum, otherwise fail. -/
def attemptReconnectRetry (s : ClientState) : ClientState × List Callback :=
  if s.reconnectAttempts < RECONNECT_CONFIG.maxAttempts then
    ((attemptReconnectSync s).1, [])
  else
    handleConnectionFailure s

/-- Raw transport signals observed by handleIceConnectionStateChange. -/
inductive IceSignal
  | checking
  | connected
  | completed
  | disconnected
  | failed
  | closed
deriving DecidableEq, Repr

/-- handleIceConnectionStateChange: the switch over the ICE connection
state signal. -/
def handleIceConnectionStateChange (sig : IceSignal) (s : ClientState) :
    ClientState × List Callback :=
  match sig with
  | .checking => setConnectionState s .connecting
  | .connected =>
    let r := setConnectionState s .connected
    ({ r.1 with reconnectAttempts := 0 }, r.2)
  | .completed =>
    let r := setConnectionState s .connected
    ({ r.1 with reconnectAttempts := 0 }, r.2)
  | .disconnected => handleDisconnection s
  | .failed => handleConnectionFailure s
  | .closed => setConnectionState s .disconnected

/-- track.stop() marks the track stopped. -/
def Track.stop (t : Track) : Track :=
  { t with stopped := true }

/-- disconnect: stops every track of the owned media stream, releases
the audio element, data channel and peer connection, resets the
session-scoped fields, and sets the two states back to their initial
values.  The second component is the list of owned tracks after the
stop calls; the third is the fired callbacks. -/
def disconnect (s : ClientState) : ClientState × List Track × List Callback :=
  let stoppedTracks := (s.mediaStream.getD []).map Track.stop
  let s1 : ClientState :=
    { s with mediaStream := none
             audioElement := false
             dataChannel := false
             peerConnection := false
             clientSecret := none
             reconnectAttempts := 0
             outputTranscript := "" }
  let r2 := setConnectionState s1 .disconnected
  let r3 := setTranslationState r2.1 .idle
  (r3.1, stoppedTracks, r2.2 ++ r3.2 ++ [.audioEndCb])

/-- The server event variants of the RealtimeServerEvent union, carrying
the payload fields the client reads. -/
inductive ServerEvent
  | sessionCreated (sessionId : String)
  | sessionUpdated
  | speechStarted
  | speechStopped
  | inputTranscriptionCompleted (transcript : String)
  | responseCreated
  | responseTextDelta (delta : String)
  | responseTextDone (text : String)
  | audioTranscriptDelta (delta : String)
  | audioTranscriptDone (transcript : String)
  | responseAudioDelta
  | responseAudioDone
  | responseDone
  | errorEvent (errorType : String) (code : Option String) (message : String)
  | rateLimitsUpdated
deriving DecidableEq, Repr

/-- processServerEvent on a well-typed server event: forwards every
event to onMessage, then the switch on the type tag.  Variants the
switch does not name fall through with no effect. -/
def processServerEvent (e : ServerEvent) (s : ClientState) :
    ClientState × List Callback :=
  let msg : List Callback := [.messageCb]
  match e with
  | .speechStarted =>
    let r := setTranslationState s .listening
    (r.1, msg ++ r.2)
  | .speechStopped =>
    let r := setTranslationState s .processing
    (r.1, msg ++ r.2)
  | .inputTranscriptionCompleted t =>
    (s, msg ++ [.inputTranscriptCb t true])
  | .responseCreated =>
    ({ s with outputTranscript := "" }, msg)
  | .audioTranscriptDelta d =>
    let s1 := { s with outputTranscript := s.outputTranscript ++ d }
    let r := setTranslationState s1 .speaking
    (r.1, msg ++ [.outputTranscriptCb s1.outputTranscript false] ++ r.2)
  | .audioTranscriptDone t =>
    (s, msg ++ [.outputTranscriptCb t true])
  | .responseDone =>
    let r := setTranslationState s .idle
    (r.1, msg ++ r.2)
  | .errorEvent ty code m =>
    let r := handleError s
      { type := .api, code := code, message := m
        recoverable := ty ≠ "authentication_error" }
    (r.1, msg ++ r.2)
  | _ => (s, msg)

/-- Language direction held in directionRef. -/
structure Direction where
  source : String
  target : String
deriving DecidableEq, Repr

/-- A history record.  The source builds the identifier from the wall
clock and a random suffix and the timestamp from the wall clock; both
are modelled by the hook logical clock. -/
structure HistoryItem where
  id : Nat
  timestamp : Nat
  direction : Direction
  inputText : String
  outputText : String
deriving DecidableEq, Repr

/-- The state the hook keeps across renders: the useState values, the
transcript refs and the direction ref, plus the logical clock feeding
record identifiers and timestamps. -/
structure HookState where
  connectionState : ConnectionState
  translationState : TranslationState
  error : Option RealtimeError
  inputTranscript : String
  outputTranscript : String
  history : List HistoryItem
  currentInput : String
  currentOutput : String
  direction : Option Direction
  clock : Nat
deriving DecidableEq, Repr

/-- Hook state right after mount. -/
def initialHook : HookState :=
  { connectionState := .disconnected
    translationState := .idle
    error := none
    inputTranscript := ""
    outputTranscript := ""
    history := []
    currentInput := ""
    currentOutput := ""
    direction := none
    clock := 0 }

/-- The bounded append inside addToHistoryRef:
`[...prev, item].slice(-100)` keeps the most recent 100 records. -/
def appendBounded (l : List HistoryItem) (item : HistoryItem) : List HistoryItem :=
  ((l ++ [item])).drop ((l ++ [item]).length - 100)

/-- The record addToHistoryRef builds at clock `c`. -/
def mkHistoryItem (c : Nat) (dir : Direction) (input output : String) :
    HistoryItem :=
  { id := c, timestamp := c, direction := dir, inputText := input
    outputText := output }

/-- String.prototype.trim: strip leading and trailing whitespace.
Written over the character list so that it evaluates by kernel
reduction. -/
def jsTrim (s : String) : String :=
  String.mk
    (((s.data.dropWhile Char.isWhitespace).reverse.dropWhile
        Char.isWhitespace).reverse)

/-- addToHistoryRef: drops the pair when either text trims to empty or
no direction is set, otherwise appends a fresh record under the
100-record bound. -/
def addToHistory (h : HookState) (input output : String) : HookState :=
  if jsTrim input = "" ∨ jsTrim output = "" ∨ h.direction = none then h
  else
    match h.direction with
    | none => h
    | some dir =>
      { h with
          history := appendBounded h.history (mkHistoryItem h.clock dir input output)
          clock := h.clock + 1 }

/-- The onTranslationStateChange handler installed by the hook: on a new
listening signal it flushes the current pair when both refs are
non-empty, then clears the display texts and both refs; on idle it
flushes when both refs are non-empty and clears the refs. -/
def hookOnTranslationStateChange (h : HookState) (st : TranslationState) :
    HookState :=
  let h0 := { h with translationState := st }
  if st = .listening then
    let h1 :=
      if h0.currentInput ≠ "" ∧ h0.currentOutput ≠ "" then
        addToHistory h0 h0.currentInput h0.currentOutput
      else h0
    { h1 with inputTranscript := "", outputTranscript := ""
              currentInput := "", currentOutput := "" }
  else if st = .idle ∧ h0.currentInput ≠ "" ∧ h0.currentOutput ≠ "" then
    let h1 := addToHistory h0 h0.currentInput h0.currentOutput
    { h1 with currentInput := "", currentOutput := "" }
  else h0

/-- The reaction of the hook to one client callback: onConnectionStateChange
mirrors the state, onInputTranscript / onOutputTranscript update the
display text and, only when final, the ref, onError records the error. -/
def applyCallback (h : HookState) (c : Callback) : HookState :=
  match c with
  | .connectionStateCb st => { h with connectionState := st }
  | .translationStateCb st => hookOnTranslationStateChange h st
  | .errorCb e => { h with error := some e }
  | .inputTranscriptCb t f =>
    { h with currentInput := if f then t else h.currentInput
             inputTranscript := t }
  | .outputTranscriptCb t f =>
    { h with currentOutput := if f then t else h.currentOutput
             outputTranscript := t }
  | .messageCb => h
  | .audioStartCb => h
  | .audioEndCb => h

/-- Client plus hook. -/
structure SystemState where
  client : ClientState
  hook : HookState
deriving DecidableEq, Repr

/-- Deliver one inbound server event: the client processes it, the hook
consumes the fired callbacks in order. -/
def stepEvent (sys : SystemState) (e : ServerEvent) : SystemState :=
  let r := processServerEvent e sys.client
  { client := r.1, hook := r.2.foldl applyCallback sys.hook }

/-- Deliver a sequence of inbound server events. -/
def runEvents (sys : SystemState) (es : List ServerEvent) : SystemState :=
  es.foldl stepEvent sys

/-- A client that has completed connect and startTranslation. -/
def connectedClient : ClientState :=
  { initialClient with
      peerConnection := true
      dataChannel := true
      mediaStream := some [{ stopped := false, enabled := true }]
      connectionState := .connected
      clientSecret := some "ephemeral-secret" }

/-- The hook state after its connect: direction set, buffers reset. -/
def connectedHook : HookState :=
  { initialHook with
      connectionState := .connected
      direction := some { source := "ko", target := "pt" } }

/-- System state right after a successful connect. -/
def sysConnected : SystemState :=
  { client := connectedClient, hook := connectedHook }

/-- A parsed JSON value.  Object fields are the JSON.parse result, so
keys are unique; numbers are restricted to integers, which covers every
field a claim touches. -/
inductive Json
  | null
  | bool (b : Bool)
  | num (n : Int)
  | str (s : String)
  | arr (elems : List Json)
  | obj (fields : List (String × Json))

/-- JavaScript property access on a parsed value: a missing key, or any
receiver that is not an object, yields undefined (none). -/
def jsGet (j : Json) (key : String) : Option Json :=
  match j with
  | .obj fields => (fields.find? (fun f => f.1 == key)).map (fun f => f.2)
  | _ => none

/-- The switch discriminant: the value of the "type" property when it is
a string, otherwise no case of the switch matches. -/
def typeDiscriminant (j : Json) : Option String :=
  match jsGet j "type" with
  | some (.str t) => some t
  | _ => none

mutual

/-- JavaScript string coercion of the elements of an array under
Array.prototype.toString: elements joined by commas, null elements
contributing the empty string. -/
def jsonListToString : List Json → String
  | [] => ""
  | [x] => jsonElemToString x
  | x :: xs => jsonElemToString x ++ "," ++ jsonListToString xs

/-- One array element under Array.prototype.toString. -/
def jsonElemToString : Json → String
  | .null => ""
  | .bool b => cond b "true" "false"
  | .num n => toString n
  | .str s => s
  | .obj _ => "[object Object]"
  | .arr xs => jsonListToString xs

end

/-- JavaScript string coercion of a parsed value, as performed by
string concatenation. -/
def jsonToString : Json → String
  | .null => "null"
  | .bool b => cond b "true" "false"
  | .num n => toString n
  | .str s => s
  | .obj _ => "[object Object]"
  | .arr xs => jsonListToString xs

/-- String concatenation with a possibly-undefined value. -/
def jsValueToString (v : Option Json) : String :=
  match v with
  | none => "undefined"
  | some j => jsonToString j

/-- Callbacks fired while processing a raw (unvalidated) inbound
message; transcript and error payloads are the raw values the source
passes through. -/
inductive JsCallback
  | messageCb (payload : Json)
  | translationStateCb (state : TranslationState)
  | errorCb (kind : ErrorKind) (code : Option Json) (errMessage : Option Json)
      (recoverable : Bool)
  | inputTranscriptCb (transcript : Option Json) (isFinal : Bool)
  | outputTranscriptCb (transcript : Option Json) (isFinal : Bool)

/-- setTranslationState as observed while processing raw messages. -/
def setTranslationStateJs (s : ClientState) (st : TranslationState) :
    ClientState × List JsCallback :=
  if s.translationState ≠ st then
    ({ s with translationState := st }, [.translationStateCb st])
  else
    (s, [])

/-- handleError as observed while processing raw messages. -/
def handleErrorJs (s : ClientState) (kind : ErrorKind)
    (code errMessage : Option Json) (recoverable : Bool) :
    ClientState × List JsCallback :=
  let r := if !recoverable then setTranslationStateJs s .error else (s, [])
  (r.1, .errorCb kind code errMessage recoverable :: r.2)

/-- The switch body of processServerEvent over a raw parsed value `j`
whose type discriminant is the string `ty`, following the JavaScript
runtime semantics: field accesses that throw are caught by the message
handler after any earlier effects. -/
def processServerEventJsonCase (ty : String) (j : Json) (s : ClientState) :
    ClientState × List JsCallback :=
  if ty = "session.created" then (s, [.messageCb j])
  else if ty = "session.updated" then (s, [.messageCb j])
  else if ty = "input_audio_buffer.speech_started" then
    let r := setTranslationStateJs s .listening
    (r.1, .messageCb j :: r.2)
  else if ty = "input_audio_buffer.speech_stopped" then
    let r := setTranslationStateJs s .processing
    (r.1, .messageCb j :: r.2)
  else if ty = "conversation.item.input_audio_transcription.completed" then
    (s, [.messageCb j, .inputTranscriptCb (jsGet j "transcript") true])
  else if ty = "response.created" then
    ({ s with outputTranscript := "" }, [.messageCb j])
  else if ty = "response.audio_transcript.delta" then
    let s1 :=
      { s with outputTranscript :=
          s.outputTranscript ++ jsValueToString (jsGet j "delta") }
    let r := setTranslationStateJs s1 .speaking
    (r.1, .messageCb j :: .outputTranscriptCb (some (.str s1.outputTranscript))
            false :: r.2)
  else if ty = "response.audio_transcript.done" then
    (s, [.messageCb j, .outputTranscriptCb (jsGet j "transcript") true])
  else if ty = "response.done" then
    let r := setTranslationStateJs s .idle
    (r.1, .messageCb j :: r.2)
  else if ty = "error" then
    match jsGet j "error" with
    | none => (s, [.messageCb j])
    | some .null => (s, [.messageCb j])
    | some err =>
      let recov : Bool :=
        match jsGet err "type" with
        | some (.str s) => !(s == "authentication_error")
        | _ => true
      let r := handleErrorJs s .api (jsGet err "code") (jsGet err "message")
        recov
      (r.1, .messageCb j :: r.2)
  else if ty = "rate_limits.updated" then (s, [.messageCb j])
  else (s, [.messageCb j])

/-- processServerEvent on an arbitrary parsed value: the dispatch looks
only at the "type" string.  Reading event.type on null throws before
onMessage fires; every other value reaches onMessage and then the
switch, a missing or non-string type matching no case. -/
def processServerEventJson (j : Json) (s : ClientState) :
    ClientState × List JsCallback :=
  match j with
  | .null => (s, [])
  | _ =>
    match typeDiscriminant j with
    | none => (s, [.messageCb j])
    | some ty => processServerEventJsonCase ty j s

/-- handleDataChannelMessage: parse failure (none) is caught and logged
with no further effect; otherwise the parsed value is processed, any
exception from processing being caught by the same handler. -/
def handleDataChannelMessage (parsed : Option Json) (s : ClientState) :
    ClientState × List JsCallback :=
  match parsed with
  | none => (s, [])
  | some j => processServerEventJson j s

/-- Required string field of the given object value. -/
def reqStr (j : Json) (k : String) : Bool :=
  match jsGet j k with
  | some (.str _) => true
  | _ => false

/-- Required numeric field of the given object value. -/
def reqNum (j : Json) (k : String) : Bool :=
  match jsGet j k with
  | some (.num _) => true
  | _ => false

/-- Optional string field: absent, or present with string type. -/
def optStr (j : Json) (k : String) : Bool :=
  match jsGet j k with
  | none => true
  | some (.str _) => true
  | _ => false

/-- Required string field drawn from a fixed enumeration. -/
def strIn (j : Json) (k : String) (allowed : List String) : Bool :=
  match jsGet j k with
  | some (.str s) => allowed.contains s
  | _ => false

/-- Optional string field drawn from a fixed enumeration. -/
def optStrIn (j : Json) (k : String) (allowed : List String) : Bool :=
  match jsGet j k with
  | none => true
  | some (.str s) => allowed.contains s
  | _ => false

/-- Required array field whose elements all satisfy the predicate. -/
def arrAll (j : Json) (k : String) (p : Json → Bool) : Bool :=
  match jsGet j k with
  | some (.arr xs) => xs.all p
  | _ => false

/-- Optional field which, when present, satisfies the predicate. -/
def optCheck (j : Json) (k : String) (p : Json → Bool) : Bool :=
  match jsGet j k with
  | none => true
  | some v => p v

/-- The Modality union: "text" or "audio". -/
def isModality (j : Json) : Bool :=
  match j with
  | .str s => s == "text" || s == "audio"
  | _ => false

/-- The VoiceType enumeration. -/
def voiceNames : List String :=
  ["verse", "alloy", "echo", "fable", "onyx", "nova", "shimmer"]

/-- The AudioFormat enumeration of the realtime types module. -/
def audioFormatNames : List String :=
  ["pcm16", "g711_ulaw", "g711_alaw"]

/-- The session payload of a session.created event. -/
def isCreatedSession (j : Json) : Bool :=
  reqStr j "id" && reqStr j "model" && reqNum j "expires_at" &&
    arrAll j "modalities" isModality && strIn j "voice" voiceNames &&
    reqStr j "instructions" && strIn j "input_audio_format" audioFormatNames &&
    strIn j "output_audio_format" audioFormatNames

/-- The session payload of a session.updated event. -/
def isUpdatedSession (j : Json) : Bool :=
  reqStr j "id" && reqStr j "model" && arrAll j "modalities" isModality &&
    strIn j "voice" voiceNames && reqStr j "instructions"

/-- The ResponseContent interface. -/
def isResponseContent (j : Json) : Bool :=
  strIn j "type" ["text", "audio"] && optStr j "text" && optStr j "audio" &&
    optStr j "transcript"

/-- The ResponseOutputItem interface. -/
def isOutputItem (j : Json) : Bool :=
  reqStr j "id" && strIn j "type" ["message", "function_call"] &&
    optStrIn j "role" ["assistant"] &&
    optCheck j "content"
      (fun c => match c with
        | .arr xs => xs.all isResponseContent
        | _ => false)

/-- The response payload of a response.created event. -/
def isCreatedResponse (j : Json) : Bool :=
  reqStr j "id" &&
    strIn j "status" ["in_progress", "completed", "cancelled", "failed"] &&
    arrAll j "output" isOutputItem

/-- The optional status_details payload of a response.done event. -/
def isStatusDetails (j : Json) : Bool :=
  reqStr j "type" && optStr j "reason"

/-- The nested input token detail payload. -/
def isInputTokenDetails (j : Json) : Bool :=
  reqNum j "cached_tokens" && reqNum j "text_tokens" && reqNum j "audio_tokens"

/-- The nested output token detail payload. -/
def isOutputTokenDetails (j : Json) : Bool :=
  reqNum j "text_tokens" && reqNum j "audio_tokens"

/-- The optional usage payload of a response.done event. -/
def isUsage (j : Json) : Bool :=
  reqNum j "input_tokens" && reqNum j "output_tokens" &&
    optCheck j "input_token_details" isInputTokenDetails &&
    optCheck j "output_token_details" isOutputTokenDetails

/-- The response payload of a response.done event. -/
def isDoneResponse (j : Json) : Bool :=
  reqStr j "id" && strIn j "status" ["completed", "cancelled", "failed"] &&
    optCheck j "status_details" isStatusDetails && arrAll j "output" isOutputItem &&
    optCheck j "usage" isUsage

/-- The shared identifier and index fields of response transcript and
audio events. -/
def hasResponseIds (j : Json) : Bool :=
  reqStr j "response_id" && reqStr j "item_id" && reqNum j "output_index" &&
    reqNum j "content_index"

/-- One entry of a rate_limits.updated list. -/
def isRateLimitEntry (j : Json) : Bool :=
  reqStr j "name" && reqNum j "limit" && reqNum j "remaining" &&
    reqNum j "reset_seconds"

/-- Decode a parsed value into a server event variant exactly when it
conforms to the RealtimeServerEvent union of the types module: the
discriminant names a variant and every required field is present with
its declared type (optional fields, when present, have their declared
type).  The constructed variant keeps the fields the client reads. -/
def decodeServerEvent (j : Json) : Option ServerEvent :=
  match typeDiscriminant j with
  | none => none
  | some ty =>
    if !optStr j "event_id" then none
    else if ty = "session.created" then
      match jsGet j "session" with
      | some sess =>
        if isCreatedSession sess then
          (match jsGet sess "id" with
            | some (.str i) => some (.sessionCreated i)
            | _ => none)
        else none
      | none => none
    else if ty = "session.updated" then
      match jsGet j "session" with
      | some sess => if isUpdatedSession sess then some .sessionUpdated else none
      | none => none
    else if ty = "input_audio_buffer.speech_started" then
      if reqNum j "audio_start_ms" && reqStr j "item_id" then
        some .speechStarted
      else none
    else if ty = "input_audio_buffer.speech_stopped" then
      if reqNum j "audio_end_ms" && reqStr j "item_id" then
        some .speechStopped
      else none
    else if ty = "conversation.item.input_audio_transcription.completed" then
      if reqStr j "item_id" && reqNum j "content_index" then
        match jsGet j "transcript" with
        | some (.str t) => some (.inputTranscriptionCompleted t)
        | _ => none
      else none
    else if ty = "response.created" then
      match jsGet j "response" with
      | some resp => if isCreatedResponse resp then some .responseCreated else none
      | none => none
    else if ty = "response.text.delta" then
      if hasResponseIds j then
        match jsGet j "delta" with
        | some (.str d) => some (.responseTextDelta d)
        | _ => none
      else none
    else if ty = "response.text.done" then
      if hasResponseIds j then
        match jsGet j "text" with
        | some (.str t) => some (.responseTextDone t)
        | _ => none
      else none
    else if ty = "response.audio_transcript.delta" then
      if hasResponseIds j then
        match jsGet j "delta" with
        | some (.str d) => some (.audioTranscriptDelta d)
        | _ => none
      else none
    else if ty = "response.audio_transcript.done" then
      if hasResponseIds j then
        match jsGet j "transcript" with
        | some (.str t) => some (.audioTranscriptDone t)
        | _ => none
      else none
    else if ty = "response.audio.delta" then
      if hasResponseIds j && reqStr j "delta" then some .responseAudioDelta
      else none
    else if ty = "response.audio.done" then
      if hasResponseIds j then some .responseAudioDone else none
    else if ty = "response.done" then
      match jsGet j "response" with
      | some resp => if isDoneResponse resp then some .responseDone else none
      | none => none
    else if ty = "error" then
      match jsGet j "error" with
      | some err =>
        (match jsGet err "type", jsGet err "message" with
          | some (.str t), some (.str m) =>
            if optStr err "code" && optStr err "param" then
              some (.errorEvent t
                (match jsGet err "code" with
                  | some (.str c) => some c
                  | _ => none) m)
            else none
          | _, _ => none)
      | none => none
    else if ty = "rate_limits.updated" then
      if arrAll j "rate_limits" isRateLimitEntry then some .rateLimitsUpdated
      else none
    else none

/-- The type strings the processServerEvent switch names a case for. -/
def handledTypeStrings : List String :=
  ["session.created", "session.updated", "input_audio_buffer.speech_started",
   "input_audio_buffer.speech_stopped",
   "conversation.item.input_audio_transcription.completed", "response.created",
   "response.audio_transcript.delta", "response.audio_transcript.done",
   "response.done", "error", "rate_limits.updated"]

/-- The observable steps of connect, in the source: setupPeerConnection
creates the peer connection and the data channel, then the microphone
stream is acquired, the audio track bound, the offer created, the offer
exchanged over the authenticated negotiation call, and the answer
applied. -/
inductive ConnectStep
  | createPeerConnection
  | openControlChannel
  | acquireAudioStream
  | bindAudioTrack
  | createOffer
  | negotiate
  | applyRemoteDescription
deriving DecidableEq, Repr

/-- The step order performed by connect. -/
def connectSteps : List ConnectStep :=
  [.createPeerConnection, .openControlChannel, .acquireAudioStream,
   .bindAudioTrack, .createOffer, .negotiate, .applyRemoteDescription]

/-- The ICE server URLs configured on the peer connection. -/
def iceServers : List String :=
  ["stun:stun.l.google.com:19302", "stun:stun1.l.google.com:19302"]

/-- The data channel is created with ordered true (and no retransmit
limit, hence reliable). -/
def dataChannelOrdered : Bool := true

/-- Effect of one successful connect step on the client fields. -/
def connectStepEffect (s : ClientState) : ConnectStep → ClientState
  | .createPeerConnection => { s with peerConnection := true }
  | .openControlChannel => { s with dataChannel := true }
  | .acquireAudioStream =>
    { s with mediaStream := some [{ stopped := false, enabled := true }] }
  | _ => s

/-- The error the catch block of connect reports when the given step
throws: getMicrophoneStream throws a ready-made audio error, any other
failure lacks a kind tag and is wrapped as a connection error.  Message
texts of wrapped native errors come from the runtime; the defaults of
the source stand in for them. -/
def connectStepFailureError : ConnectStep → RealtimeError
  | .acquireAudioStream =>
    { type := .audio, message := "마이크 접근에 실패했습니다.", recoverable := false }
  | _ =>
    { type := .connection, message := "연결 중 오류가 발생했습니다."
      recoverable := false }

/-- Run the connect steps in order until the designated failing step, if
any: returns the final fields, the trace of steps reached, and the step
that threw. -/
def runConnectSteps :
    List ConnectStep → Option ConnectStep → ClientState →
      ClientState × List ConnectStep × Option ConnectStep
  | [], _, s => (s, [], none)
  | st :: rest, failAt, s =>
    if failAt = some st then (s, [st], some st)
    else
      let r := runConnectSteps rest failAt (connectStepEffect s st)
      (r.1, st :: r.2.1, r.2.2)

/-- connect, run without interleaving: an early return when already
connected, otherwise the credential is stored, the state set to
connecting, the steps run, and any failure funnelled through the catch
block (state failed, error reported). -/
def connectAttempt (s : ClientState) (secret : String)
    (failAt : Option ConnectStep) :
    ClientState × List ConnectStep × List Callback :=
  if s.connectionState = .connected then (s, [], [])
  else
    let s1 := { s with clientSecret := some secret }
    let r2 := setConnectionState s1 .connecting
    let r3 := runConnectSteps connectSteps failAt r2.1
    match r3.2.2 with
    | none => (r3.1, r3.2.1, r2.2)
    | some failedStep =>
      let r4 := setConnectionState r3.1 .failed
      let r5 := handleError r4.1 (connectStepFailureError failedStep)
      (r5.1, r3.2.1, r2.2 ++ r4.2 ++ r5.2)

/-- The TypeError raised when the negotiation continuation dereferences
the peer connection that disconnect nulled out; its engine-generated
message text is environment-specific. -/
def nullAccessMessage : String :=
  "Cannot read properties of null"

/-- The continuation of connect that runs when the negotiation response
arrives: applying the remote description succeeds on a live peer
connection; on a torn-down one the non-null assertion throws and the
catch block wraps the TypeError as a non-recoverable connection error
after forcing the state to failed. -/
def connectFinalize (s : ClientState) : ClientState × List Callback :=
  if s.peerConnection then (s, [])
  else
    let r1 := setConnectionState s .failed
    let r2 := handleError r1.1
      { type := .connection, message := nullAccessMessage, recoverable := false }
    (r2.1, r1.2 ++ r2.2)

/-- The entry points that can touch the client state over a session:
transport signals, the retry branch of a failed reconnect, a connect
call, an inbound server event, and disconnect. -/
inductive ClientAction
  | ice (sig : IceSignal)
  | retry
  | connectCall (secret : String) (failAt : Option ConnectStep)
  | server (e : ServerEvent)
  | disconnectCall

/-- Apply one action to the client state. -/
def clientStep (s : ClientState) (a : ClientAction) : ClientState :=
  match a with
  | .ice sig => (handleIceConnectionStateChange sig s).1
  | .retry => (attemptReconnectRetry s).1
  | .connectCall secret failAt => (connectAttempt s secret failAt).1
  | .server e => (processServerEvent e s).1
  | .disconnectCall => (disconnect s).1

/-- Apply a sequence of actions from the freshly constructed client. -/
def runClientActions (acts : List ClientAction) : ClientState :=
  acts.foldl clientStep initialClient

/-- A sample history record for the witnesses. -/
def sampleItem : HistoryItem :=
  mkHistoryItem 0 { source := "ko", target := "pt" } "안녕하세요" "Olá"

/-- A client captured in the middle of connect, past setupPeerConnection
and before the negotiation response resolves. -/
def midConnectClient : ClientState :=
  { initialClient with
      clientSecret := some "ephemeral-secret"
      connectionState := .connecting
      peerConnection := true
      dataChannel := true }

/-- Whether the discriminant of a parsed value names a case of the
processServerEvent switch. -/
def dispatchesKnownType (j : Json) : Bool :=
  match typeDiscriminant j with
  | some t => handledTypeStrings.contains t
  | none => false

/-- Whether a raw-layer callback is the error callback. -/
def JsCallback.isErrorCb : JsCallback → Bool
  | .errorCb _ _ _ _ => true
  | _ => false

/-- A syntactically valid JSON payload carrying a known type string but
none of the required fields of its variant. -/
def malformedSpeechStarted : Json :=
  .obj [("type", .str "input_audio_buffer.speech_started")]

/-- The §8 scenario events exactly as the spec lists them: no input
transcription event occurs. -/
def scenarioNoInput : List ServerEvent :=
  [.speechStarted, .speechStopped, .audioTranscriptDelta "Bo",
   .audioTranscriptDelta "a tarde", .audioTranscriptDone "Boa tarde",
   .responseDone]

/-- The §8 scenario with the input transcription completion the flush
guard requires. -/
def scenarioWithInput : List ServerEvent :=
  [.speechStarted, .speechStopped, .inputTranscriptionCompleted "Olá",
   .audioTranscriptDelta "Bo", .audioTranscriptDelta "a tarde",
   .audioTranscriptDone "Boa tarde", .responseDone]

/-- Mid-turn events: the user spoke, the input transcription landed, a
first output fragment arrived, and no transcript done event has been
received when the next utterance starts. -/
def scenarioBargeIn : List ServerEvent :=
  [.speechStarted, .inputTranscriptionCompleted "Olá",
   .audioTranscriptDelta "Bo"]

/-- A hook state holding a finalized turn pair awaiting response.done. -/
def bargeInReadyHook : HookState :=
  { connectedHook with currentInput := "안녕하세요", currentOutput := "Olá" }

/-- A system mid-turn with a finalized pair, before turn completion. -/
def sysBargeInReady : SystemState :=
  { client := { connectedClient with translationState := .speaking }
    hook := bargeInReadyHook }

theorem setConnectionState_fst_connectionState (s : ClientState)
    (st : ConnectionState) : (setConnectionState s st).1.connectionState = st := by
  by_cases h : s.connectionState = st <;> simp [setConnectionState, h]

theorem setConnectionState_fst_translationState (s : ClientState)
    (st : ConnectionState) :
    (setConnectionState s st).1.translationState = s.translationState := by
  by_cases h : s.connectionState = st <;> simp [setConnectionState, h]

theorem setConnectionState_fst_reconnectAttempts (s : ClientState)
    (st : ConnectionState) :
    (setConnectionState s st).1.reconnectAttempts = s.reconnectAttempts := by
  by_cases h : s.connectionState = st <;> simp [setConnectionState, h]

theorem setTranslationState_fst_translationState (s : ClientState)
    (st : TranslationState) :
    (setTranslationState s st).1.translationState = st := by
  by_cases h : s.translationState = st <;> simp [setTranslationState, h]

theorem setTranslationState_fst_connectionState (s : ClientState)
    (st : TranslationState) :
    (setTranslationState s st).1.connectionState = s.connectionState := by
  by_cases h : s.translationState = st <;> simp [setTranslationState, h]

theorem setTranslationState_fst_reconnectAttempts (s : ClientState)
    (st : TranslationState) :
    (setTranslationState s st).1.reconnectAttempts = s.reconnectAttempts := by
  by_cases h : s.translationState = st <;> simp [setTranslationState, h]

theorem handleError_fst_connectionState (s : ClientState) (e : RealtimeError) :
    (handleError s e).1.connectionState = s.connectionState := by
  unfold handleError
  by_cases h : e.recoverable <;>
    simp [h, setTranslationState_fst_connectionState]

theorem handleError_fst_reconnectAttempts (s : ClientState) (e : RealtimeError) :
    (handleError s e).1.reconnectAttempts = s.reconnectAttempts := by
  unfold handleError
  by_cases h : e.recoverable <;>
    simp [h, setTranslationState_fst_reconnectAttempts]

theorem handleError_errorCb_mem (s : ClientState) (e : RealtimeError) :
    Callback.errorCb e ∈ (handleError s e).2 := by
  unfold handleError
  simp

theorem handleConnectionFailure_fst_connectionState (s : ClientState) :
    (handleConnectionFailure s).1.connectionState = .failed := by
  unfold handleConnectionFailure
  simp [handleError_fst_connectionState, setTranslationState_fst_connectionState,
    setConnectionState_fst_connectionState]

theorem handleConnectionFailure_fst_reconnectAttempts (s : ClientState) :
    (handleConnectionFailure s).1.reconnectAttempts = s.reconnectAttempts := by
  unfold handleConnectionFailure
  simp [handleError_fst_reconnectAttempts, setTranslationState_fst_reconnectAttempts,
    setConnectionState_fst_reconnectAttempts]

theorem handleConnectionFailure_errorCb_mem (s : ClientState) :
    Callback.errorCb connectionFailedError ∈ (handleConnectionFailure s).2 := by
  unfold handleConnectionFailure
  simp [handleError_errorCb_mem]

theorem attemptReconnectSync_fst_connectionState (s : ClientState) :
    (attemptReconnectSync s).1.connectionState = s.connectionState := by
  unfold attemptReconnectSync
  cases s.clientSecret <;> simp

theorem attemptReconnectSync_fst_attempts_le (s : ClientState) :
    (attemptReconnectSync s).1.reconnectAttempts ≤ s.reconnectAttempts + 1 := by
  unfold attemptReconnectSync
  cases s.clientSecret <;> simp

/-- C10: setConnectionState and setTranslationState assign and notify
their listener only when the supplied value differs from the current
state, so a repeated delivery of the same value leaves the state
untouched and fires no second notification. -/
theorem setters_notify_only_on_change :
    (∀ (s : ClientState) (st : ConnectionState),
        s.connectionState = st → setConnectionState s st = (s, []))
    ∧ (∀ (s : ClientState) (st : TranslationState),
        s.translationState = st → setTranslationState s st = (s, []))
    ∧ (∀ (s : ClientState) (st : ConnectionState),
        setConnectionState (setConnectionState s st).1 st
          = ((setConnectionState s st).1, []))
    ∧ (∀ (s : ClientState) (st : TranslationState),
        setTranslationState (setTranslationState s st).1 st
          = ((setTranslationState s st).1, [])) := by
  refine ⟨?_, ?_, ?_, ?_⟩
  · intro s st h
    simp [setConnectionState, h]
  · intro s st h
    simp [setTranslationState, h]
  · intro s st
    by_cases h : s.connectionState = st <;> simp [setConnectionState, h]
  · intro s st
    by_cases h : s.translationState = st <;> simp [setTranslationState, h]

/-- Witness for C10 at concrete inputs. -/
theorem setters_notify_only_on_change_witness :
    setConnectionState initialClient .disconnected = (initialClient, [])
    ∧ setTranslationState initialClient .idle = (initialClient, []) :=
  ⟨setters_notify_only_on_change.1 initialClient .disconnected rfl,
   setters_notify_only_on_change.2.1 initialClient .idle rfl⟩

/-- C3: from any state, the transport signals drive the connection state
exactly per the table: checking to connecting; connected or completed to
connected with the attempt counter reset; disconnected to reconnecting
below the attempt maximum and otherwise to failed with a non-recoverable
connection error; transport failed to failed with the same error; closed
to disconnected.  The six cases cover every signal, so no signal
produces any other state. -/
theorem connection_state_transition_table (s : ClientState) :
    (handleIceConnectionStateChange .checking s).1.connectionState = .connecting
    ∧ (handleIceConnectionStateChange .connected s).1.connectionState = .connected
    ∧ (handleIceConnectionStateChange .connected s).1.reconnectAttempts = 0
    ∧ (handleIceConnectionStateChange .completed s).1.connectionState = .connected
    ∧ (handleIceConnectionStateChange .completed s).1.reconnectAttempts = 0
    ∧ (if s.reconnectAttempts < RECONNECT_CONFIG.maxAttempts then
        (handleIceConnectionStateChange .disconnected s).1.connectionState
          = .reconnecting
      else
        (handleIceConnectionStateChange .disconnected s).1.connectionState = .failed
        ∧ Callback.errorCb connectionFailedError
            ∈ (handleIceConnectionStateChange .disconnected s).2)
    ∧ (handleIceConnectionStateChange .failed s).1.connectionState = .failed
    ∧ Callback.errorCb connectionFailedError
        ∈ (handleIceConnectionStateChange .failed s).2
    ∧ connectionFailedError.recoverable = false
    ∧ (handleIceConnectionStateChange .closed s).1.connectionState
        = .disconnected := by
  refine ⟨?_, ?_, ?_, ?_, ?_, ?_, ?_, ?_, rfl, ?_⟩
  · simp [handleIceConnectionStateChange, setConnectionState_fst_connectionState]
  · simp [handleIceConnectionStateChange, setConnectionState_fst_connectionState]
  · simp [handleIceConnectionStateChange]
  · simp [handleIceConnectionStateChange, setConnectionState_fst_connectionState]
  · simp [handleIceConnectionStateChange]
  · by_cases h : s.reconnectAttempts < RECONNECT_CONFIG.maxAttempts
    · simp [h, handleIceConnectionStateChange, handleDisconnection,
        attemptReconnectSync_fst_connectionState,
        setConnectionState_fst_connectionState]
    · simp [h, handleIceConnectionStateChange, handleDisconnection,
        handleConnectionFailure_fst_connectionState,
        handleConnectionFailure_errorCb_mem]
  · simp [handleIceConnectionStateChange,
      handleConnectionFailure_fst_connectionState]
  · simp [handleIceConnectionStateChange, handleConnectionFailure_errorCb_mem]
  · simp [handleIceConnectionStateChange, setConnectionState_fst_connectionState]

/-- The state disconnect leaves behind is the initial one. -/
theorem disconnect_fst (s : ClientState) : (disconnect s).1 = initialClient := by
  unfold disconnect
  by_cases h1 : s.connectionState = ConnectionState.disconnected <;>
    by_cases h2 : s.translationState = TranslationState.idle <;>
      simp [setConnectionState, setTranslationState, h1, h2, initialClient]

/-- C6: disconnect stops every owned media track, ends at connection
state disconnected and turn state idle, resets every session-scoped
field to its initial value, and a second disconnect leaves exactly the
state of the first. -/
theorem disconnect_releases_and_resets (s : ClientState) :
    ((disconnect s).2.1.all fun t => t.stopped) = true
    ∧ (disconnect s).1.connectionState = .disconnected
    ∧ (disconnect s).1.translationState = .idle
    ∧ (disconnect s).1.clientSecret = none
    ∧ (disconnect s).1.reconnectAttempts = 0
    ∧ (disconnect s).1.outputTranscript = ""
    ∧ (disconnect s).1.mediaStream = none
    ∧ (disconnect s).1.peerConnection = false
    ∧ (disconnect s).1.dataChannel = false
    ∧ (disconnect s).1.audioElement = false
    ∧ (disconnect (disconnect s).1).1 = (disconnect s).1 := by
  refine ⟨?_, ?_, ?_, ?_, ?_, ?_, ?_, ?_, ?_, ?_, ?_⟩
  · show ((s.mediaStream.getD []).map Track.stop).all (fun t => t.stopped) = true
    simp [Track.stop]
  all_goals simp [disconnect_fst, initialClient]

theorem processServerEvent_fst_reconnectAttempts (e : ServerEvent)
    (s : ClientState) :
    (processServerEvent e s).1.reconnectAttempts = s.reconnectAttempts := by
  cases e <;>
    simp [processServerEvent, setTranslationState_fst_reconnectAttempts,
      handleError_fst_reconnectAttempts]

theorem connectStepEffect_reconnectAttempts (s : ClientState) (st : ConnectStep) :
    (connectStepEffect s st).reconnectAttempts = s.reconnectAttempts := by
  cases st <;> simp [connectStepEffect]

theorem runConnectSteps_fst_reconnectAttempts (l : List ConnectStep)
    (failAt : Option ConnectStep) (s : ClientState) :
    (runConnectSteps l failAt s).1.reconnectAttempts = s.reconnectAttempts := by
  induction l generalizing s with
  | nil => rfl
  | cons st rest ih =>
    unfold runConnectSteps
    by_cases h : failAt = some st <;>
      simp [h, ih, connectStepEffect_reconnectAttempts]

theorem connectAttempt_fst_reconnectAttempts (s : ClientState) (secret : String)
    (failAt : Option ConnectStep) :
    (connectAttempt s secret failAt).1.reconnectAttempts = s.reconnectAttempts := by
  unfold connectAttempt
  by_cases h : s.connectionState = ConnectionState.connected
  · simp [h]
  · simp only [h, if_false]
    split <;>
      simp_all [handleError_fst_reconnectAttempts,
        setConnectionState_fst_reconnectAttempts,
        runConnectSteps_fst_reconnectAttempts]

theorem clientStep_attempts_le (s : ClientState) (a : ClientAction)
    (h : s.reconnectAttempts ≤ RECONNECT_CONFIG.maxAttempts) :
    (clientStep s a).reconnectAttempts ≤ RECONNECT_CONFIG.maxAttempts := by
  cases a with
  | ice sig =>
    cases sig with
    | checking =>
      simpa [clientStep, handleIceConnectionStateChange,
        setConnectionState_fst_reconnectAttempts] using h
    | connected => simp [clientStep, handleIceConnectionStateChange]
    | completed => simp [clientStep, handleIceConnectionStateChange]
    | disconnected =>
      simp only [clientStep, handleIceConnectionStateChange, handleDisconnection]
      by_cases hlt : s.reconnectAttempts < RECONNECT_CONFIG.maxAttempts
      · simp only [hlt, if_true]
        calc (attemptReconnectSync (setConnectionState s .reconnecting).1).1.reconnectAttempts
            ≤ (setConnectionState s .reconnecting).1.reconnectAttempts + 1 :=
              attemptReconnectSync_fst_attempts_le _
          _ = s.reconnectAttempts + 1 := by
              rw [setConnectionState_fst_reconnectAttempts]
          _ ≤ RECONNECT_CONFIG.maxAttempts := hlt
      · simpa [hlt, handleConnectionFailure_fst_reconnectAttempts] using h
    | failed =>
      simpa [clientStep, handleIceConnectionStateChange,
        handleConnectionFailure_fst_reconnectAttempts] using h
    | closed =>
      simpa [clientStep, handleIceConnectionStateChange,
        setConnectionState_fst_reconnectAttempts] using h
  | retry =>
    simp only [clientStep, attemptReconnectRetry]
    by_cases hlt : s.reconnectAttempts < RECONNECT_CONFIG.maxAttempts
    · simp only [hlt, if_true]
      calc (attemptReconnectSync s).1.reconnectAttempts
          ≤ s.reconnectAttempts + 1 := attemptReconnectSync_fst_attempts_le s
        _ ≤ RECONNECT_CONFIG.maxAttempts := hlt
    · simpa [hlt, handleConnectionFailure_fst_reconnectAttempts] using h
  | connectCall secret failAt =>
    simpa [clientStep, connectAttempt_fst_reconnectAttempts] using h
  | server e =>
    simpa [clientStep, processServerEvent_fst_reconnectAttempts] using h
  | disconnectCall => simp [clientStep, disconnect_fst, initialClient]

theorem foldl_clientStep_attempts_le (acts : List ClientAction) (s : ClientState)
    (h : s.reconnectAttempts ≤ RECONNECT_CONFIG.maxAttempts) :
    (acts.foldl clientStep s).reconnectAttempts ≤ RECONNECT_CONFIG.maxAttempts := by
  induction acts generalizing s with
  | nil => exact h
  | cons a rest ih => exact ih _ (clientStep_attempts_le s a h)

/-- C4: over any action sequence from the fresh client the reconnect
attempt counter never exceeds 3; a reconnect attempt without a held
credential is abandoned with nothing scheduled; with a credential the
scheduled delay before attempt n is min of 1000 times 2 to the n minus 1
and 10000, which for the three admissible attempts is exactly 1000, 2000
and 4000 milliseconds. -/
theorem reconnect_bounded_with_backoff :
    (∀ acts : List ClientAction,
        (runClientActions acts).reconnectAttempts ≤ RECONNECT_CONFIG.maxAttempts)
    ∧ (∀ s : ClientState, s.clientSecret = none →
        attemptReconnectSync s = (s, none))
    ∧ (∀ (s : ClientState) (c : String), s.clientSecret = some c →
        (attemptReconnectSync s).2
          = some (reconnectDelay (s.reconnectAttempts + 1)))
    ∧ (∀ n, 1 ≤ n → n ≤ RECONNECT_CONFIG.maxAttempts →
        reconnectDelay n = RECONNECT_CONFIG.baseDelayMs * 2 ^ (n - 1))
    ∧ reconnectDelay 1 = 1000 ∧ reconnectDelay 2 = 2000
    ∧ reconnectDelay 3 = 4000 := by
  refine ⟨?_, ?_, ?_, ?_, by decide, by decide, by decide⟩
  · intro acts
    exact foldl_clientStep_attempts_le acts initialClient (by decide)
  · intro s h
    simp [attemptReconnectSync, h]
  · intro s c h
    simp [attemptReconnectSync, h]
  · intro n h1 h3
    have h3 : n ≤ 3 := h3
    interval_cases n <;> decide

/-- Witness for C4 at concrete inputs. -/
theorem reconnect_bounded_with_backoff_witness :
    attemptReconnectSync initialClient = (initialClient, none)
    ∧ (attemptReconnectSync connectedClient).2 = some (reconnectDelay 1)
    ∧ reconnectDelay 2 = RECONNECT_CONFIG.baseDelayMs * 2 ^ 1 :=
  ⟨reconnect_bounded_with_backoff.2.1 initialClient rfl,
   reconnect_bounded_with_backoff.2.2.1 connectedClient "ephemeral-secret" rfl,
   reconnect_bounded_with_backoff.2.2.2.1 2 (by decide) (by decide)⟩

theorem appendBounded_length_le (l : List HistoryItem) (item : HistoryItem)
    (h : l.length ≤ 100) : (appendBounded l item).length ≤ 100 := by
  simp only [appendBounded, List.length_drop, List.length_append,
    List.length_cons, List.length_nil]
  omega

theorem appendBounded_at_cap (l : List HistoryItem) (item : HistoryItem)
    (h : l.length = 100) : appendBounded l item = l.tail ++ [item] := by
  have h1 : (l ++ [item]).length - 100 = 1 := by
    simp [List.length_append, h]
  rw [appendBounded, h1, List.drop_append_of_le_length (by omega),
    List.drop_one]

theorem appendBounded_suffix (l : List HistoryItem) (item : HistoryItem) :
    (appendBounded l item).IsSuffix (l ++ [item]) :=
  List.drop_suffix _ _

theorem appendBounded_length_of_lt (l : List HistoryItem) (item : HistoryItem)
    (h : l.length < 100) : (appendBounded l item).length = l.length + 1 := by
  simp only [appendBounded, List.length_drop, List.length_append,
    List.length_cons, List.length_nil]
  omega

theorem addToHistory_history (h : HookState) (dir : Direction)
    (input output : String) (hdir : h.direction = some dir)
    (hin : jsTrim input ≠ "") (hout : jsTrim output ≠ "") :
    (addToHistory h input output).history
      = appendBounded h.history (mkHistoryItem h.clock dir input output) := by
  simp [addToHistory, hdir, hin, hout]

/-- C9: the bounded append of the history aggregator keeps the record
count at 100 or below, evicts exactly the oldest record when a record is
appended at the cap, and always yields a suffix of the naive append, so
the surviving records keep their completion order; addToHistoryRef
performs exactly that append whenever the pair passes its guard, and any
history built by repeated bounded appends respects the cap. -/
theorem history_capped_evicting_oldest :
    (∀ (l : List HistoryItem) (item : HistoryItem),
        l.length ≤ 100 → (appendBounded l item).length ≤ 100)
    ∧ (∀ (l : List HistoryItem) (item : HistoryItem),
        l.length = 100 → appendBounded l item = l.tail ++ [item])
    ∧ (∀ (l : List HistoryItem) (item : HistoryItem),
        (appendBounded l item).IsSuffix (l ++ [item]))
    ∧ (∀ (l : List HistoryItem) (item : HistoryItem),
        l.length < 100 → (appendBounded l item).length = l.length + 1)
    ∧ (∀ (h : HookState) (dir : Direction) (input output : String),
        h.direction = some dir → jsTrim input ≠ "" → jsTrim output ≠ "" →
        (addToHistory h input output).history
          = appendBounded h.history (mkHistoryItem h.clock dir input output))
    ∧ (∀ items : List HistoryItem,
        (items.foldl appendBounded []).length ≤ 100) := by
  refine ⟨appendBounded_length_le, appendBounded_at_cap, appendBounded_suffix,
    appendBounded_length_of_lt, addToHistory_history, ?_⟩
  intro items
  have aux : ∀ (its : List HistoryItem) (l : List HistoryItem),
      l.length ≤ 100 → (its.foldl appendBounded l).length ≤ 100 := by
    intro its
    induction its with
    | nil => intro l h; exact h
    | cons x rest ih =>
      intro l h
      exact ih _ (appendBounded_length_le l x h)
  exact aux items [] (by decide)

/-- Witness for C9 at concrete inputs. -/
theorem history_capped_evicting_oldest_witness :
    (appendBounded [] sampleItem).length ≤ 100
    ∧ (addToHistory connectedHook "안녕하세요" "Olá").history
        = appendBounded connectedHook.history
            (mkHistoryItem connectedHook.clock
              { source := "ko", target := "pt" } "안녕하세요" "Olá") :=
  ⟨history_capped_evicting_oldest.1 [] sampleItem (by decide),
   history_capped_evicting_oldest.2.2.2.2.1 connectedHook
     { source := "ko", target := "pt" } "안녕하세요" "Olá" rfl (by decide)
     (by decide)⟩

/-- C5 counterexample: disconnect during connecting leaves the state
disconnected, but when the torn-down negotiation continuation then
resolves, it is not ignored: it ends at connection state failed, not
disconnected, and mutates the turn state. -/
theorem stale_negotiation_callback_cex :
    (disconnect midConnectClient).1.connectionState = .disconnected
    ∧ (connectFinalize (disconnect midConnectClient).1).1.connectionState
        = .failed
    ∧ ¬ (connectFinalize (disconnect midConnectClient).1).1.connectionState
        = .disconnected
    ∧ (connectFinalize (disconnect midConnectClient).1).1.translationState
        = .error := by decide

/-- C5 amended: the late negotiation continuation of a torn-down connect
attempt is not ignored: it dereferences the nulled peer connection, the
raised TypeError reaches the catch block, and the client ends at
connection state failed with turn state error and a non-recoverable
connection error fired. -/
theorem stale_negotiation_callback_fails (s : ClientState) :
    (connectFinalize (disconnect s).1).1.connectionState = .failed
    ∧ (connectFinalize (disconnect s).1).1.translationState = .error
    ∧ Callback.errorCb
        { type := .connection, message := nullAccessMessage, recoverable := false }
        ∈ (connectFinalize (disconnect s).1).2 := by
  rw [disconnect_fst]
  decide

/-- C8 counterexample: the steps of a successful connect run in the
order of the source, where the peer connection and the control channel
are created before the audio capture stream is acquired; the claimed
order, audio acquisition first, is therefore false on the recorded
trace. -/
theorem connect_step_order_cex :
    (connectAttempt initialClient "tok" none).2.1 = connectSteps
    ∧ connectSteps.indexOf ConnectStep.createPeerConnection = 0
    ∧ connectSteps.indexOf ConnectStep.openControlChannel = 1
    ∧ connectSteps.indexOf ConnectStep.acquireAudioStream = 2
    ∧ ¬ connectSteps.indexOf ConnectStep.acquireAudioStream
        < connectSteps.indexOf ConnectStep.createPeerConnection := by decide

/-- C8 amended: connect performs its steps in the order create peer
connection, open the ordered control channel, acquire the audio capture
stream, bind the track, create and exchange the offer over the
credential-authenticated negotiation, apply the remote description; a
failure while acquiring audio carries the audio kind and any other
failing step is wrapped as a connection kind, every failure being
non-recoverable and leaving the connection state at failed; the peer
connection is configured with at least one STUN server and the channel
is ordered. -/
theorem connect_order_and_failure (s : ClientState) (secret : String)
    (f : ConnectStep) (h : s.connectionState ≠ .connected) :
    (connectAttempt s secret none).2.1 = connectSteps
    ∧ (connectAttempt s secret (some f)).1.connectionState = .failed
    ∧ Callback.errorCb (connectStepFailureError f)
        ∈ (connectAttempt s secret (some f)).2.2
    ∧ (connectStepFailureError .acquireAudioStream).type = .audio
    ∧ (f ≠ .acquireAudioStream → (connectStepFailureError f).type = .connection)
    ∧ (connectStepFailureError f).recoverable = false
    ∧ iceServers ≠ []
    ∧ dataChannelOrdered = true := by
  refine ⟨?_, ?_, ?_, by decide, ?_, ?_, by decide, by decide⟩
  · simp [connectAttempt, h, connectSteps, runConnectSteps]
  · simp only [connectAttempt, h, if_false]
    cases f <;>
      simp [connectSteps, runConnectSteps, setConnectionState_fst_connectionState,
        handleError_fst_connectionState]
  · simp only [connectAttempt, h, if_false]
    cases f <;>
      simp [connectSteps, runConnectSteps, handleError_errorCb_mem]
  · intro hf
    cases f <;> simp_all [connectStepFailureError]
  · cases f <;> simp [connectStepFailureError]

/-- Witness for C8 at concrete inputs. -/
theorem connect_order_and_failure_witness :
    (connectAttempt initialClient "tok" (some ConnectStep.negotiate)).1.connectionState
      = .failed
    ∧ (connectStepFailureError ConnectStep.negotiate).type = .connection :=
  ⟨(connect_order_and_failure initialClient "tok" .negotiate
      (by decide)).2.1,
   (connect_order_and_failure initialClient "tok" .negotiate
      (by decide)).2.2.2.2.1 (by decide)⟩

theorem jsTrim_ne_of_trim_ne (s : String) (h : jsTrim s ≠ "") : s ≠ "" := by
  intro he
  rw [he] at h
  exact h rfl

theorem stepEvent_speechStarted (sys : SystemState)
    (h1 : sys.client.translationState ≠ .listening) :
    stepEvent sys .speechStarted
      = { client := { sys.client with translationState := .listening }
          hook := hookOnTranslationStateChange sys.hook .listening } := by
  simp [stepEvent, processServerEvent, setTranslationState, h1, applyCallback]

theorem hookListening_no_flush (h : HookState) (hout : h.currentOutput = "") :
    hookOnTranslationStateChange h .listening
      = { h with translationState := .listening
                 inputTranscript := ""
                 outputTranscript := ""
                 currentInput := ""
                 currentOutput := "" } := by
  simp [hookOnTranslationStateChange, hout]

theorem hookListening_flush (h : HookState) (dir : Direction)
    (hdir : h.direction = some dir) (hin : jsTrim h.currentInput ≠ "")
    (hout : jsTrim h.currentOutput ≠ "") :
    (hookOnTranslationStateChange h .listening).history
      = appendBounded h.history
          (mkHistoryItem h.clock dir h.currentInput h.currentOutput)
    ∧ (hookOnTranslationStateChange h .listening).currentInput = ""
    ∧ (hookOnTranslationStateChange h .listening).currentOutput = "" := by
  have hin' : h.currentInput ≠ "" := jsTrim_ne_of_trim_ne _ hin
  have hout' : h.currentOutput ≠ "" := jsTrim_ne_of_trim_ne _ hout
  refine ⟨?_, ?_, ?_⟩ <;>
    simp [hookOnTranslationStateChange, hin', hout', addToHistory, hdir, hin,
      hout]

/-- C1 counterexample: after speech start, a finalized input "Olá" and
an accumulated but never finalized output fragment "Bo", a new
speech_started signal does not flush the pair: the history stays empty
while both buffers are cleared, although the input buffer was non-empty
and the output buffer held partial text. -/
theorem barge_in_discards_unfinalized_cex :
    (runEvents sysConnected scenarioBargeIn).hook.currentInput = "Olá"
    ∧ (runEvents sysConnected scenarioBargeIn).client.outputTranscript = "Bo"
    ∧ (runEvents sysConnected scenarioBargeIn).hook.outputTranscript = "Bo"
    ∧ (runEvents sysConnected scenarioBargeIn).hook.currentOutput = ""
    ∧ (runEvents sysConnected scenarioBargeIn).hook.history = []
    ∧ (stepEvent (runEvents sysConnected scenarioBargeIn)
        .speechStarted).hook.history = []
    ∧ (stepEvent (runEvents sysConnected scenarioBargeIn)
        .speechStarted).hook.currentInput = ""
    ∧ (stepEvent (runEvents sysConnected scenarioBargeIn)
        .speechStarted).hook.outputTranscript = "" := by decide

/-- C1 amended: on a new speech_started signal the previous pair is
flushed to History, its length growing by one, exactly when the
previous output was finalized by a transcript done event (both refs
non-blank with a direction set); an accumulated output that was never
finalized is discarded instead, the buffers being cleared either way
with no History growth. -/
theorem barge_in_flushes_only_finalized (sys : SystemState) (dir : Direction)
    (h1 : sys.client.translationState ≠ .listening) :
    (sys.hook.currentOutput = "" →
      (stepEvent sys .speechStarted).hook.history = sys.hook.history
      ∧ (stepEvent sys .speechStarted).hook.currentInput = ""
      ∧ (stepEvent sys .speechStarted).hook.currentOutput = ""
      ∧ (stepEvent sys .speechStarted).hook.inputTranscript = ""
      ∧ (stepEvent sys .speechStarted).hook.outputTranscript = "")
    ∧ (sys.hook.direction = some dir → jsTrim sys.hook.currentInput ≠ "" →
        jsTrim sys.hook.currentOutput ≠ "" → sys.hook.history.length < 100 →
      (stepEvent sys .speechStarted).hook.history.length
        = sys.hook.history.length + 1
      ∧ (stepEvent sys .speechStarted).hook.history
          = appendBounded sys.hook.history
              (mkHistoryItem sys.hook.clock dir sys.hook.currentInput
                sys.hook.currentOutput)
      ∧ (stepEvent sys .speechStarted).hook.currentInput = ""
      ∧ (stepEvent sys .speechStarted).hook.currentOutput = "") := by
  rw [stepEvent_speechStarted sys h1]
  constructor
  · intro hout
    rw [hookListening_no_flush sys.hook hout]
    exact ⟨rfl, rfl, rfl, rfl, rfl⟩
  · intro hdir hin hout hlen
    obtain ⟨e1, e2, e3⟩ := hookListening_flush sys.hook dir hdir hin hout
    refine ⟨?_, e1, e2, e3⟩
    rw [e1, appendBounded_length_of_lt _ _ hlen]

/-- Witness for C1 at concrete inputs, one per implication. -/
theorem barge_in_flushes_only_finalized_witness :
    ((stepEvent sysBargeInReady .speechStarted).hook.history.length
      = sysBargeInReady.hook.history.length + 1
      ∧ (stepEvent sysBargeInReady .speechStarted).hook.currentOutput = "")
    ∧ (stepEvent sysConnected .speechStarted).hook.history
        = sysConnected.hook.history :=
  ⟨⟨((barge_in_flushes_only_finalized sysBargeInReady
        { source := "ko", target := "pt" } (by decide)).2 rfl (by decide)
        (by decide) (by decide)).1,
    ((barge_in_flushes_only_finalized sysBargeInReady
        { source := "ko", target := "pt" } (by decide)).2 rfl (by decide)
        (by decide) (by decide)).2.2.2⟩,
   ((barge_in_flushes_only_finalized sysConnected
        { source := "ko", target := "pt" } (by decide)).1 rfl).1⟩

theorem setTranslationStateJs_fst_connectionState (s : ClientState)
    (st : TranslationState) :
    (setTranslationStateJs s st).1.connectionState = s.connectionState := by
  by_cases h : s.translationState = st <;> simp [setTranslationStateJs, h]

theorem handleErrorJs_fst_connectionState (s : ClientState) (k : ErrorKind)
    (code m : Option Json) (r : Bool) :
    (handleErrorJs s k code m r).1.connectionState = s.connectionState := by
  unfold handleErrorJs
  by_cases h : r <;> simp [h, setTranslationStateJs_fst_connectionState]

theorem processServerEventJsonCase_fst_connectionState (ty : String) (j : Json)
    (s : ClientState) :
    (processServerEventJsonCase ty j s).1.connectionState
      = s.connectionState := by
  unfold processServerEventJsonCase
  by_cases h1 : ty = "session.created"
  · rw [if_pos h1]
  rw [if_neg h1]
  by_cases h2 : ty = "session.updated"
  · rw [if_pos h2]
  rw [if_neg h2]
  by_cases h3 : ty = "input_audio_buffer.speech_started"
  · rw [if_pos h3]
    exact setTranslationStateJs_fst_connectionState s .listening
  rw [if_neg h3]
  by_cases h4 : ty = "input_audio_buffer.speech_stopped"
  · rw [if_pos h4]
    exact setTranslationStateJs_fst_connectionState s .processing
  rw [if_neg h4]
  by_cases h5 : ty = "conversation.item.input_audio_transcription.completed"
  · rw [if_pos h5]
  rw [if_neg h5]
  by_cases h6 : ty = "response.created"
  · rw [if_pos h6]
  rw [if_neg h6]
  by_cases h7 : ty = "response.audio_transcript.delta"
  · rw [if_pos h7]
    exact setTranslationStateJs_fst_connectionState _ .speaking
  rw [if_neg h7]
  by_cases h8 : ty = "response.audio_transcript.done"
  · rw [if_pos h8]
  rw [if_neg h8]
  by_cases h9 : ty = "response.done"
  · rw [if_pos h9]
    exact setTranslationStateJs_fst_connectionState s .idle
  rw [if_neg h9]
  by_cases h10 : ty = "error"
  · rw [if_pos h10]
    rcases hje : jsGet j "error" with _ | je
    · rfl
    · cases je <;>
        first
        | rfl
        | simp [handleErrorJs_fst_connectionState]
  rw [if_neg h10]
  by_cases h11 : ty = "rate_limits.updated"
  · rw [if_pos h11]
  rw [if_neg h11]

theorem processServerEventJson_fst_connectionState (j : Json) (s : ClientState) :
    (processServerEventJson j s).1.connectionState = s.connectionState := by
  unfold processServerEventJson
  cases j with
  | null => rfl
  | bool b => rfl
  | num n => rfl
  | str s1 => rfl
  | arr xs => rfl
  | obj fields =>
    rcases htd : typeDiscriminant (Json.obj fields) with _ | ty
    · simp [htd]
    · simp [htd, processServerEventJsonCase_fst_connectionState]

theorem processServerEventJsonCase_unknown (ty : String) (j : Json)
    (s : ClientState) (h : handledTypeStrings.contains ty = false) :
    processServerEventJsonCase ty j s = (s, [.messageCb j]) := by
  have hmem : ty ∉ handledTypeStrings := by
    simpa using h
  have n1 : ty ≠ "session.created" := by
    intro he; subst he; exact hmem (by decide)
  have n2 : ty ≠ "session.updated" := by
    intro he; subst he; exact hmem (by decide)
  have n3 : ty ≠ "input_audio_buffer.speech_started" := by
    intro he; subst he; exact hmem (by decide)
  have n4 : ty ≠ "input_audio_buffer.speech_stopped" := by
    intro he; subst he; exact hmem (by decide)
  have n5 : ty ≠ "conversation.item.input_audio_transcription.completed" := by
    intro he; subst he; exact hmem (by decide)
  have n6 : ty ≠ "response.created" := by
    intro he; subst he; exact hmem (by decide)
  have n7 : ty ≠ "response.audio_transcript.delta" := by
    intro he; subst he; exact hmem (by decide)
  have n8 : ty ≠ "response.audio_transcript.done" := by
    intro he; subst he; exact hmem (by decide)
  have n9 : ty ≠ "response.done" := by
    intro he; subst he; exact hmem (by decide)
  have n10 : ty ≠ "error" := by
    intro he; subst he; exact hmem (by decide)
  have n11 : ty ≠ "rate_limits.updated" := by
    intro he; subst he; exact hmem (by decide)
  unfold processServerEventJsonCase
  rw [if_neg n1, if_neg n2, if_neg n3, if_neg n4, if_neg n5, if_neg n6,
    if_neg n7, if_neg n8, if_neg n9, if_neg n10, if_neg n11]

theorem processServerEventJson_unknown_type (j : Json) (s : ClientState)
    (h : dispatchesKnownType j = false) :
    (processServerEventJson j s).1 = s
    ∧ ((processServerEventJson j s).2.all fun c => ! c.isErrorCb) = true := by
  unfold processServerEventJson
  cases j with
  | null => exact ⟨rfl, rfl⟩
  | bool b => exact ⟨rfl, rfl⟩
  | num n => exact ⟨rfl, rfl⟩
  | str s1 => exact ⟨rfl, rfl⟩
  | arr xs => exact ⟨rfl, rfl⟩
  | obj fields =>
    rcases htd : typeDiscriminant (Json.obj fields) with _ | ty
    · constructor <;> simp [htd, JsCallback.isErrorCb]
    · have hc : handledTypeStrings.contains ty = false := by
        unfold dispatchesKnownType at h
        rwa [htd] at h
      have he := processServerEventJsonCase_unknown ty (Json.obj fields) s hc
      constructor <;> simp [htd, he, JsCallback.isErrorCb]

/-- C7 counterexample: a syntactically valid control payload whose type
string names the speech_started variant but which carries none of the
required fields of the variant is not a known server event (the decoder
rejects it), yet processing it moves the turn state from idle to
listening. -/
theorem malformed_known_type_changes_turn_state_cex :
    decodeServerEvent malformedSpeechStarted = none
    ∧ connectedClient.translationState = .idle
    ∧ (processServerEventJson malformedSpeechStarted
        connectedClient).1.translationState = .listening := by decide

/-- C7 amended: a message that fails to parse is dropped with no state
change and no callback; processing any payload never touches the
connection state; and a payload whose type discriminant is not among
the known type strings of the switch leaves the client state unchanged and
fires no error callback.  The dispatch looks only at the type string,
so a payload with a known type string but malformed fields is processed
as though well-formed and may change the turn state. -/
theorem malformed_message_never_disrupts (j : Json) (s : ClientState) :
    handleDataChannelMessage none s = (s, [])
    ∧ (processServerEventJson j s).1.connectionState = s.connectionState
    ∧ (dispatchesKnownType j = false →
        (processServerEventJson j s).1 = s
        ∧ ((processServerEventJson j s).2.all fun c => ! c.isErrorCb) = true) :=
  ⟨rfl, processServerEventJson_fst_connectionState j s,
   fun h => processServerEventJson_unknown_type j s h⟩

/-- Witness for C7 at concrete inputs. -/
theorem malformed_message_never_disrupts_witness :
    (processServerEventJson (Json.str "garbage") connectedClient).1
      = connectedClient
    ∧ handleDataChannelMessage none connectedClient = (connectedClient, []) :=
  ⟨((malformed_message_never_disrupts (Json.str "garbage") connectedClient).2.2
      rfl).1,
   (malformed_message_never_disrupts (Json.str "garbage") connectedClient).1⟩

/-- C2 counterexample: the §8 event sequence as listed, which contains
no input transcription event, produces no History record at all: the
output "Boa tarde" is finalized in the output ref, the turn ends idle,
and the history stays empty because the flush guard requires a
non-empty input buffer. -/
theorem scenario_without_input_no_record :
    (runEvents sysConnected scenarioNoInput).hook.history = []
    ∧ (runEvents sysConnected scenarioNoInput).hook.currentOutput = "Boa tarde"
    ∧ (runEvents sysConnected scenarioNoInput).client.translationState
        = .idle := by decide

/-- C2 amended: the scenario yields exactly one History record with
output text "Boa tarde" once it also carries the input transcription
completed event (here with transcript "Olá") that the flush guard
requires; without it no record is produced. -/
theorem scenario_with_input_one_record :
    ((runEvents sysConnected scenarioWithInput).hook.history.map
      (fun r => r.outputText)) = ["Boa tarde"]
    ∧ ((runEvents sysConnected scenarioWithInput).hook.history.map
      (fun r => r.inputText)) = ["Olá"]
    ∧ (runEvents sysConnected scenarioWithInput).hook.history.length = 1 := by
  decide
